import Mathlib

/-!
Shallow embedding of the pybecker protocol layer (src/pybecker/becker.py).

The Python module drives Becker roller-shutter motors through a Centronic
USB stick.  `Becker.run_codes` maps a command keyword to a list of frames,
incrementing the unit's rolling counter while building them, transmits the
frames, and persists the unit; `Becker.send` parses and validates the
channel and resolves the target unit(s); `Becker._reconnecting_sendall`
wraps `socket.sendall` with a single reconnect-and-retry.

Frame encoding (`generate_code` / `finalize_code`, from the missing
`becker_helper` module) and the sqlite unit store (`database` module) are
not part of src/; they are modelled from the spec as pure, abstract
operations.  Side effects (frame builds, transmissions, sleeps, persistence)
are recorded as an explicit event trace in program order.
-/

namespace Pybecker

/-- Opcode `COMMAND_UP = 0x20` (move up). -/
def COMMAND_UP : Nat := 0x20

/-- Opcode `COMMAND_UP5 = 0x24` (intermediate position "up"). -/
def COMMAND_UP5 : Nat := 0x24

/-- Opcode `COMMAND_DOWN = 0x40` (move down). -/
def COMMAND_DOWN : Nat := 0x40

/-- Opcode `COMMAND_DOWN5 = 0x44` (intermediate position "down"). -/
def COMMAND_DOWN5 : Nat := 0x44

/-- Opcode `COMMAND_HALT = 0x10` (halt). -/
def COMMAND_HALT : Nat := 0x10

/-- Opcode `COMMAND_PAIR = 0x80` (pair button press). -/
def COMMAND_PAIR : Nat := 0x80

/-- Opcode `COMMAND_PAIR2 = 0x81` (pair button pressed for 3 seconds). -/
def COMMAND_PAIR2 : Nat := 0x81

/-- Opcode `COMMAND_PAIR3 = 0x82` (pair button pressed for 6 seconds). -/
def COMMAND_PAIR3 : Nat := 0x82

/-- Opcode `COMMAND_PAIR4 = 0x83` (pair button pressed for 10 seconds). -/
def COMMAND_PAIR4 : Nat := 0x83

/-- Opcode `COMMAND_CLEARPOS = 0x90`. -/
def COMMAND_CLEARPOS : Nat := 0x90

/-- Opcode `COMMAND_CLEARPOS2 = 0x91`. -/
def COMMAND_CLEARPOS2 : Nat := 0x91

/-- Opcode `COMMAND_CLEARPOS3 = 0x92`. -/
def COMMAND_CLEARPOS3 : Nat := 0x92

/-- Opcode `COMMAND_CLEARPOS4 = 0x93`. -/
def COMMAND_CLEARPOS4 : Nat := 0x93

/-- A unit record, the Python list `[id, counter, paired]` handled by
`run_codes` (`unit[0]`, `unit[1]`, `unit[2]`). -/
structure BUnit where
  id : Int
  counter : Nat
  paired : Nat
deriving DecidableEq

/-- Modelled from the spec: `generate_code` (in the missing `becker_helper`
module) packs channel, unit id, the unit's current counter and the opcode
into the fixed frame layout; modelled as a record keeping those four
fields, since the exact byte layout is not in src/. -/
structure Frame where
  channel : Int
  unitId : Int
  counter : Nat
  opcode : Nat
deriving DecidableEq

/-- Modelled from the spec: the frame built by `generate_code(channel,
unit, command)` from the unit's current state. -/
def generate_code (channel : Int) (u : BUnit) (command : Nat) : Frame :=
  ⟨channel, u.id, u.counter, command⟩

/-- Modelled from the spec: `finalize_code` (missing `becker_helper`
module) appends checksum/framing bytes; modelled as an injective wrapper
around the raw frame since the exact wire bytes are not in src/. -/
structure Wire where
  payload : Frame
deriving DecidableEq

/-- Modelled from the spec: finalization of a raw frame into wire bytes. -/
def finalize_code (f : Frame) : Wire := ⟨f⟩

/-- One observable step of `run_codes` / `write`, in program order:
`build` is a `generate_code` call appending to `codes`; `transmit` is one
`write_function(finalize_code(code))` call; `sleepMs` is a `time.sleep`;
`setPaired` is an assignment to `unit[2]`; `persist` is the
`db.set_unit(unit, test)` call. -/
inductive Event where
  | build (f : Frame)
  | transmit (w : Wire)
  | sleepMs (ms : Nat)
  | setPaired (b : Nat)
  | persist (u : BUnit) (test : Bool)
deriving DecidableEq

/-- Number of `transmit` events in a trace. -/
def transmitCount : List Event → Nat
  | [] => 0
  | Event.transmit _ :: rest => transmitCount rest + 1
  | _ :: rest => transmitCount rest

/-- Number of `build` events in a trace. -/
def buildCount : List Event → Nat
  | [] => 0
  | Event.build _ :: rest => buildCount rest + 1
  | _ :: rest => buildCount rest

/-- In-memory paired flag (`unit[2]`) after replaying a trace from an
initial value: only `setPaired` events change it. -/
def pairedAfterEvents (p0 : Nat) : List Event → Nat
  | [] => p0
  | Event.setPaired b :: rest => pairedAfterEvents b rest
  | _ :: rest => pairedAfterEvents p0 rest

/-- The match `re.match(r"(DOWN|UP):(\d+)", cmd)` at the top of
`run_codes`: anchored at the start of `cmd`, it requires the literal
`DOWN:` or `UP:` followed by at least one digit; `group(2)` is the maximal
leading digit run, whose value is returned. -/
def matchTimed (cmd : String) : Option (Bool × Nat) :=
  let cs := cmd.data
  if cs.take 5 = "DOWN:".data then
    let ds := (cs.drop 5).takeWhile Char.isDigit
    if ds.isEmpty then none
    else some (false, ds.foldl (fun a c => a * 10 + (c.toNat - 48)) 0)
  else if cs.take 3 = "UP:".data then
    let ds := (cs.drop 3).takeWhile Char.isDigit
    if ds.isEmpty then none
    else some (true, ds.foldl (fun a c => a * 10 + (c.toNat - 48)) 0)
  else none

/-- The `if cmd == ... elif ...` chain of `run_codes` (lines 111-145):
returns the `codes` list built for the keyword and the unit as mutated by
the chain (`unit[1] += 1` between frames, `unit[2]` set by TRAIN/REMOVE).
A keyword that matches no branch leaves `codes` empty and the unit
untouched. -/
def buildPhase (channel : Int) (u : BUnit) (cmd : String) : List Frame × BUnit :=
  if cmd = "UP" then ([generate_code channel u COMMAND_UP], u)
  else if cmd = "UP2" then ([generate_code channel u COMMAND_UP5], u)
  else if cmd = "HALT" then ([generate_code channel u COMMAND_HALT], u)
  else if cmd = "DOWN" then ([generate_code channel u COMMAND_DOWN], u)
  else if cmd = "DOWN2" then ([generate_code channel u COMMAND_DOWN5], u)
  else if cmd = "TRAIN" then
    let c1 := generate_code channel u COMMAND_PAIR2
    let ua : BUnit := { u with counter := u.counter + 1 }
    let c2 := generate_code channel ua COMMAND_PAIR2
    ([c1, c2], { ua with paired := 1 })
  else if cmd = "CLEARPOS" then
    let c1 := generate_code channel u COMMAND_PAIR
    let ua : BUnit := { u with counter := u.counter + 1 }
    let c2 := generate_code channel ua COMMAND_CLEARPOS
    let ub : BUnit := { ua with counter := ua.counter + 1 }
    let c3 := generate_code channel ub COMMAND_CLEARPOS2
    let uc : BUnit := { ub with counter := ub.counter + 1 }
    let c4 := generate_code channel uc COMMAND_CLEARPOS3
    let ud : BUnit := { uc with counter := uc.counter + 1 }
    let c5 := generate_code channel ud COMMAND_CLEARPOS4
    ([c1, c2, c3, c4, c5], ud)
  else if cmd = "REMOVE" then
    let c1 := generate_code channel u COMMAND_PAIR2
    let ua : BUnit := { u with counter := u.counter + 1 }
    let c2 := generate_code channel ua COMMAND_PAIR2
    let ub : BUnit := { ua with counter := ua.counter + 1 }
    let c3 := generate_code channel ub COMMAND_PAIR3
    let uc : BUnit := { ub with counter := ub.counter + 1 }
    let c4 := generate_code channel uc COMMAND_PAIR4
    ([c1, c2, c3, c4], { uc with paired := 0 })
  else ([], u)

/-- The `unit[2] = ...` assignment events of the build phase, in the
position they occur (after the last frame of TRAIN resp. REMOVE). -/
def pairedEvents (cmd : String) : List Event :=
  if cmd = "TRAIN" then [Event.setPaired 1]
  else if cmd = "REMOVE" then [Event.setPaired 0]
  else []

/-- `Becker.write`: transmits `finalize_code(code)` for each code, with a
`time.sleep(0.1)` after each.  The transport (`write_function`) is
abstracted by `failAt`, the index of the first low-level write attempt
that raises; `idx` is the index of the next attempt.  Returns the events,
the next attempt index, and whether all writes succeeded (a failed write
raises, so later codes are not attempted and no event is recorded for the
failed attempt). -/
def writeFrames (failAt : Option Nat) (idx : Nat) : List Frame → List Event × Nat × Bool
  | [] => ([], idx, true)
  | c :: rest =>
    if failAt = some idx then ([], idx + 1, false)
    else
      let r := writeFrames failAt (idx + 1) rest
      (Event.transmit (finalize_code c) :: Event.sleepMs 100 :: r.1, r.2.1, r.2.2)

/-- Result of one `run_codes` call: the event trace, the in-memory unit
after the call, the next transport attempt index, whether the call
returned normally (`ok = false` means an exception propagated), and
whether `db.set_unit` (line 172) was reached. -/
structure RunResult where
  events : List Event
  unit : BUnit
  nextIdx : Nat
  ok : Bool
  persisted : Bool
deriving DecidableEq

/-- `Becker.run_codes` (lines 102-172).  The guard rejects a non-TRAIN
command on an unpaired unit.  The build phase then runs; if the timed-move
regex matched, the code calls the nonexistent accessor `_LOGGER.INFO`
(line 148), which raises `AttributeError` before any timed-move frame is
generated, so the call aborts there with nothing transmitted or persisted.
Otherwise the counter is incremented once more, the codes are written, and
the unit is persisted; a write failure propagates before `db.set_unit`. -/
def run_codes (failAt : Option Nat) (idx : Nat) (channel : Int) (u : BUnit)
    (cmd : String) (test : Bool) : RunResult :=
  if u.paired = 0 ∧ cmd ≠ "TRAIN" then ⟨[], u, idx, true, false⟩
  else
    let cu := buildPhase channel u cmd
    let bev := cu.1.map Event.build ++ pairedEvents cmd
    match matchTimed cmd with
    | some _ => ⟨bev, cu.2, idx, false, false⟩
    | none =>
      let u2 : BUnit := { cu.2 with counter := cu.2.counter + 1 }
      let w := writeFrames failAt idx cu.1
      if w.2.2 then
        ⟨bev ++ w.1 ++ [Event.persist u2 test], u2, w.2.1, true, true⟩
      else
        ⟨bev ++ w.1, u2, w.2.1, false, false⟩

/-- Modelled from the spec: `Database.get_unit` (missing `database`
module) returns the stored record for a unit id; the store is modelled as
an ordered list of unit records keyed by id. -/
def get_unit (store : List BUnit) (un : Int) : Option BUnit :=
  store.find? (fun v => v.id == un)

/-- Modelled from the spec: `Database.set_unit(unit, test)` persists
counter and paired flag for the unit's id; with `test` (dry run) set it
performs no persistence. -/
def set_unit (store : List BUnit) (u : BUnit) (test : Bool) : List BUnit :=
  if test then store else store.map (fun v => if v.id = u.id then u else v)

/-- Result of one `send` call: the event trace, the persisted store
afterwards, and whether the call returned normally. -/
structure SendResult where
  events : List Event
  store : List BUnit
  ok : Bool
deriving DecidableEq

/-- The broadcast loop of `send` (lines 195-197): `run_codes` for each
unit of the snapshot taken by `get_all_units`, aborting if a call
raises. -/
def sendBroadcast (failAt : Option Nat) (idx : Nat) (store : List BUnit)
    (units : List BUnit) (channel : Int) (cmd : String) (test : Bool) : SendResult :=
  match units with
  | [] => ⟨[], store, true⟩
  | u :: rest =>
    let r := run_codes failAt idx channel u cmd test
    let store1 := if r.persisted then set_unit store r.unit test else store
    if r.ok then
      let s := sendBroadcast failAt r.nextIdx store1 rest channel cmd test
      ⟨r.events ++ s.events, s.store, s.ok⟩
    else ⟨r.events, store1, false⟩

/-- The unit-resolution part of `send` (lines 191-197): a positive unit id
is looked up in the store (spec: `get` fails with NotFound if absent),
otherwise every known unit is targeted. -/
def sendResolve (failAt : Option Nat) (store : List BUnit) (ch un : Int)
    (cmd : String) (test : Bool) : SendResult :=
  if un > 0 then
    match get_unit store un with
    | none => ⟨[], store, false⟩
    | some u =>
      let r := run_codes failAt 0 ch u cmd test
      ⟨r.events, if r.persisted then set_unit store r.unit test else store, r.ok⟩
  else sendBroadcast failAt 0 store store ch cmd test

/-- `Becker.send` (lines 174-197) after parsing the channel string: the
channel must lie in 1..7 or be 15, else the call logs and returns with no
side effect (line 183-185); then the target unit(s) are resolved and
`run_codes` is driven. -/
def sendParsed (failAt : Option Nat) (store : List BUnit) (ch un : Int)
    (cmd : String) (test : Bool) : SendResult :=
  if ¬(1 ≤ ch ∧ ch ≤ 7) ∧ ch ≠ 15 then ⟨[], store, true⟩
  else sendResolve failAt store ch un cmd test

/-- The events produced by a fully successful `Becker.write` call: one
transmission and one 100 ms sleep per code, in order. -/
def wireEvents : List Frame → List Event
  | [] => []
  | c :: rest => Event.transmit (finalize_code c) :: Event.sleepMs 100 :: wireEvents rest

/-- Result of replaying a sequence of operations against one unit's
persisted record: the concatenated event trace, the final persisted
record, and the number of operations that reached `db.set_unit` while
transmitting no frame. -/
structure OpsResult where
  events : List Event
  unit : BUnit
  noFrame : Nat
deriving DecidableEq

/-- A sequence of `run_codes` operations against a single unit, each
element giving the transport behaviour (`failAt`), the channel, the
command keyword and the dry-run flag.  Between operations the unit is
re-read from the store, so an operation that never reached `db.set_unit`
(or was a dry run) leaves the persisted record unchanged. -/
def opsRunF (u : BUnit) : List (Option Nat × Int × String × Bool) → OpsResult
  | [] => ⟨[], u, 0⟩
  | (fa, ch, cmd, t) :: rest =>
    let r := run_codes fa 0 ch u cmd t
    let u1 := if r.persisted ∧ t = false then r.unit else u
    let s := opsRunF u1 rest
    ⟨r.events ++ s.events, s.unit,
     (if r.persisted ∧ transmitCount r.events = 0 then 1 else 0) + s.noFrame⟩

/-- `opsRunF` specialised to a fully working transport and non-dry-run
operations. -/
def opsRun (u : BUnit) (ops : List (Int × String)) : OpsResult :=
  opsRunF u (ops.map (fun p => (none, p.1, p.2, false)))

/-- Result of one `_reconnecting_sendall` call against the abstracted
socket: how many sends the remote peer observed, how many low-level send
attempts were made, how many reconnects were attempted, and whether the
call returned normally. -/
structure SendallResult where
  delivered : Nat
  sendAttempts : Nat
  reconnects : Nat
  ok : Bool
deriving DecidableEq

/-- `Becker._reconnecting_sendall` (lines 87-95): try `self.s.sendall`;
on `OSError`, call `self._connect()` and retry the send once, with no
handler around either the reconnect or the retry, so a failure of either
propagates.  The environment is abstracted by three outcomes: whether the
first send succeeds, whether the reconnect succeeds, and whether the
retried send succeeds; a failed send delivers nothing to the peer. -/
def reconnecting_sendall (firstOk connectOk secondOk : Bool) : SendallResult :=
  if firstOk then ⟨1, 1, 0, true⟩
  else if connectOk then
    if secondOk then ⟨1, 2, 1, true⟩ else ⟨0, 2, 1, false⟩
  else ⟨0, 1, 1, false⟩

/-! ### Helper lemmas about the embedding -/

theorem writeFrames_none (cs : List Frame) : ∀ idx : Nat,
    writeFrames none idx cs = (wireEvents cs, idx + cs.length, true) := by
  induction cs with
  | nil => intro idx; simp [writeFrames, wireEvents]
  | cons c rest ih => intro idx; simp [writeFrames, wireEvents, ih (idx + 1)]; omega

theorem transmitCount_append (l1 l2 : List Event) :
    transmitCount (l1 ++ l2) = transmitCount l1 + transmitCount l2 := by
  induction l1 with
  | nil => simp [transmitCount]
  | cons e l1 ih =>
    cases e <;> simp [transmitCount, ih]
    omega

theorem transmitCount_wireEvents (cs : List Frame) :
    transmitCount (wireEvents cs) = cs.length := by
  induction cs with
  | nil => rfl
  | cons c rest ih => simp [wireEvents, transmitCount, ih]

theorem transmitCount_map_build (cs : List Frame) :
    transmitCount (cs.map Event.build) = 0 := by
  induction cs with
  | nil => rfl
  | cons c rest ih => simpa [transmitCount] using ih

theorem transmitCount_pairedEvents (cmd : String) :
    transmitCount (pairedEvents cmd) = 0 := by
  unfold pairedEvents
  split_ifs <;> rfl

theorem buildPhase_counter_le (channel : Int) (u : BUnit) (cmd : String) :
    u.counter ≤ (buildPhase channel u cmd).2.counter := by
  unfold buildPhase
  split_ifs <;> simp <;> omega

theorem buildPhase_id (channel : Int) (u : BUnit) (cmd : String) :
    (buildPhase channel u cmd).2.id = u.id := by
  unfold buildPhase
  split_ifs <;> simp

theorem buildPhase_empty_or (channel : Int) (u : BUnit) (cmd : String) :
    ((buildPhase channel u cmd).1 = [] ∧ (buildPhase channel u cmd).2 = u) ∨
    ((buildPhase channel u cmd).1.length ≠ 0 ∧
     (buildPhase channel u cmd).2.counter + 1 = u.counter + (buildPhase channel u cmd).1.length) := by
  unfold buildPhase
  split_ifs <;> simp

theorem buildPhase_of_timed (channel : Int) (u : BUnit) (cmd : String)
    (x : Bool × Nat) (h : matchTimed cmd = some x) :
    buildPhase channel u cmd = ([], u) := by
  unfold buildPhase
  split_ifs with h1 h2 h3 h4 h5 h6 h7 h8
  · subst h1; rw [(by decide : matchTimed "UP" = none)] at h; cases h
  · subst h2; rw [(by decide : matchTimed "UP2" = none)] at h; cases h
  · subst h3; rw [(by decide : matchTimed "HALT" = none)] at h; cases h
  · subst h4; rw [(by decide : matchTimed "DOWN" = none)] at h; cases h
  · subst h5; rw [(by decide : matchTimed "DOWN2" = none)] at h; cases h
  · subst h6; rw [(by decide : matchTimed "TRAIN" = none)] at h; cases h
  · subst h7; rw [(by decide : matchTimed "CLEARPOS" = none)] at h; cases h
  · subst h8; rw [(by decide : matchTimed "REMOVE" = none)] at h; cases h
  · rfl

theorem pairedEvents_of_timed (cmd : String) (x : Bool × Nat)
    (h : matchTimed cmd = some x) : pairedEvents cmd = [] := by
  unfold pairedEvents
  split_ifs with h1 h2
  · subst h1; rw [(by decide : matchTimed "TRAIN" = none)] at h; cases h
  · subst h2; rw [(by decide : matchTimed "REMOVE" = none)] at h; cases h
  · rfl

theorem run_codes_guard (failAt : Option Nat) (idx : Nat) (channel : Int)
    (u : BUnit) (cmd : String) (test : Bool) (h0 : u.paired = 0) (h1 : cmd ≠ "TRAIN") :
    run_codes failAt idx channel u cmd test = ⟨[], u, idx, true, false⟩ := by
  unfold run_codes
  rw [if_pos ⟨h0, h1⟩]

theorem run_codes_timed (failAt : Option Nat) (idx : Nat) (channel : Int)
    (u : BUnit) (cmd : String) (test : Bool) (x : Bool × Nat)
    (h : matchTimed cmd = some x) :
    (run_codes failAt idx channel u cmd test).events = [] ∧
    (run_codes failAt idx channel u cmd test).unit = u ∧
    (run_codes failAt idx channel u cmd test).persisted = false := by
  unfold run_codes
  split_ifs with hg
  · exact ⟨rfl, rfl, rfl⟩
  · rw [buildPhase_of_timed channel u cmd x h, pairedEvents_of_timed cmd x h]
    simp [h]

theorem run_codes_shape (idx : Nat) (channel : Int) (u : BUnit) (cmd : String)
    (test : Bool) (hg : ¬(u.paired = 0 ∧ cmd ≠ "TRAIN")) (hmt : matchTimed cmd = none) :
    run_codes none idx channel u cmd test =
      ⟨((buildPhase channel u cmd).1.map Event.build ++ pairedEvents cmd) ++
         wireEvents (buildPhase channel u cmd).1 ++
         [Event.persist ⟨(buildPhase channel u cmd).2.id,
            (buildPhase channel u cmd).2.counter + 1,
            (buildPhase channel u cmd).2.paired⟩ test],
       ⟨(buildPhase channel u cmd).2.id, (buildPhase channel u cmd).2.counter + 1,
        (buildPhase channel u cmd).2.paired⟩,
       idx + (buildPhase channel u cmd).1.length, true, true⟩ := by
  unfold run_codes
  rw [if_neg hg]
  simp [hmt, writeFrames_none]

theorem run_codes_unit_of_not_timed (failAt : Option Nat) (idx : Nat) (channel : Int)
    (u : BUnit) (cmd : String) (test : Bool)
    (hg : ¬(u.paired = 0 ∧ cmd ≠ "TRAIN")) (hmt : matchTimed cmd = none) :
    (run_codes failAt idx channel u cmd test).unit =
      ⟨(buildPhase channel u cmd).2.id, (buildPhase channel u cmd).2.counter + 1,
       (buildPhase channel u cmd).2.paired⟩ := by
  unfold run_codes
  rw [if_neg hg]
  simp only [hmt]
  split <;> rfl

theorem run_codes_counter_le (failAt : Option Nat) (idx : Nat) (channel : Int)
    (u : BUnit) (cmd : String) (test : Bool) :
    u.counter ≤ (run_codes failAt idx channel u cmd test).unit.counter := by
  by_cases hg : u.paired = 0 ∧ cmd ≠ "TRAIN"
  · rw [run_codes_guard failAt idx channel u cmd test hg.1 hg.2]
  · cases hmt : matchTimed cmd with
    | some x =>
      rw [(run_codes_timed failAt idx channel u cmd test x hmt).2.1]
    | none =>
      rw [run_codes_unit_of_not_timed failAt idx channel u cmd test hg hmt]
      have := buildPhase_counter_le channel u cmd
      simp
      omega

theorem step_counter_formula (ch : Int) (u : BUnit) (cmd : String) :
    (if (run_codes none 0 ch u cmd false).persisted ∧ (false : Bool) = false
      then (run_codes none 0 ch u cmd false).unit else u).counter
      = u.counter + transmitCount (run_codes none 0 ch u cmd false).events
        + (if (run_codes none 0 ch u cmd false).persisted ∧
             transmitCount (run_codes none 0 ch u cmd false).events = 0 then 1 else 0) := by
  by_cases hg : u.paired = 0 ∧ cmd ≠ "TRAIN"
  · rw [run_codes_guard none 0 ch u cmd false hg.1 hg.2]
    simp [transmitCount]
  · cases hmt : matchTimed cmd with
    | some x =>
      obtain ⟨he, hu, hp⟩ := run_codes_timed none 0 ch u cmd false x hmt
      rw [he, hu, hp]
      simp [transmitCount]
    | none =>
      rw [run_codes_shape 0 ch u cmd false hg hmt]
      simp only [transmitCount_append, transmitCount_map_build, transmitCount_pairedEvents,
        transmitCount_wireEvents]
      have hpersist : transmitCount [Event.persist ⟨(buildPhase ch u cmd).2.id,
          (buildPhase ch u cmd).2.counter + 1, (buildPhase ch u cmd).2.paired⟩ false] = 0 := rfl
      rw [hpersist]
      rcases buildPhase_empty_or ch u cmd with ⟨h1, h2⟩ | ⟨h1, h2⟩
      · rw [h1, h2]
        simp
      · simp only [true_and, and_true]
        rw [if_pos trivial, if_neg (by simpa using h1)]
        simp
        omega

theorem opsRunF_counter_le (ops : List (Option Nat × Int × String × Bool)) :
    ∀ u : BUnit, u.counter ≤ (opsRunF u ops).unit.counter := by
  induction ops with
  | nil => intro u; exact le_refl _
  | cons op rest ih =>
    intro u
    obtain ⟨fa, ch, cmd, t⟩ := op
    show u.counter ≤ (opsRunF (if (run_codes fa 0 ch u cmd t).persisted ∧ t = false
      then (run_codes fa 0 ch u cmd t).unit else u) rest).unit.counter
    refine le_trans ?_ (ih _)
    split
    · exact run_codes_counter_le fa 0 ch u cmd t
    · exact le_refl _

theorem opsRun_counter_eq (ops : List (Int × String)) : ∀ u : BUnit,
    (opsRun u ops).unit.counter =
      u.counter + transmitCount (opsRun u ops).events + (opsRun u ops).noFrame := by
  induction ops with
  | nil => intro u; simp [opsRun, opsRunF, transmitCount]
  | cons op rest ih =>
    intro u
    obtain ⟨ch, cmd⟩ := op
    have hstep := step_counter_formula ch u cmd
    have hih := ih (if (run_codes none 0 ch u cmd false).persisted ∧ (false : Bool) = false
      then (run_codes none 0 ch u cmd false).unit else u)
    show (opsRun (if (run_codes none 0 ch u cmd false).persisted ∧ (false : Bool) = false
        then (run_codes none 0 ch u cmd false).unit else u) rest).unit.counter
      = u.counter
        + transmitCount ((run_codes none 0 ch u cmd false).events
            ++ (opsRun (if (run_codes none 0 ch u cmd false).persisted ∧ (false : Bool) = false
                  then (run_codes none 0 ch u cmd false).unit else u) rest).events)
        + ((if (run_codes none 0 ch u cmd false).persisted ∧
              transmitCount (run_codes none 0 ch u cmd false).events = 0 then 1 else 0)
           + (opsRun (if (run_codes none 0 ch u cmd false).persisted ∧ (false : Bool) = false
                then (run_codes none 0 ch u cmd false).unit else u) rest).noFrame)
    rw [transmitCount_append, hih, hstep]
    omega

theorem buildPhase_unknown (channel : Int) (u : BUnit) (cmd : String)
    (h : cmd ∉ (["UP", "UP2", "HALT", "DOWN", "DOWN2", "TRAIN", "CLEARPOS", "REMOVE"] : List String)) :
    buildPhase channel u cmd = ([], u) := by
  simp only [List.mem_cons, List.not_mem_nil, or_false, not_or] at h
  obtain ⟨h1, h2, h3, h4, h5, h6, h7, h8⟩ := h
  unfold buildPhase
  rw [if_neg h1, if_neg h2, if_neg h3, if_neg h4, if_neg h5, if_neg h6, if_neg h7, if_neg h8]

theorem pairedEvents_unknown (cmd : String)
    (h : cmd ∉ (["UP", "UP2", "HALT", "DOWN", "DOWN2", "TRAIN", "CLEARPOS", "REMOVE"] : List String)) :
    pairedEvents cmd = [] := by
  simp only [List.mem_cons, List.not_mem_nil, or_false, not_or] at h
  unfold pairedEvents
  rw [if_neg h.2.2.2.2.2.1, if_neg h.2.2.2.2.2.2.2]

/-! ### Claim theorems -/

/-- C1 (counterexample): the claim "the counter equals the total number of
frames transmitted for the unit since its creation" is false as stated: a
unit created unpaired with counter 0, paired via TRAIN and then sent the
unrecognized keyword NOP has transmitted 2 frames but holds counter 3,
because `run_codes` increments and persists the counter even when the
keyword built no frame. -/
theorem claim_C1_counterexample :
    transmitCount (opsRun ⟨1, 0, 0⟩ [(1, "TRAIN"), (1, "NOP")]).events = 2 ∧
    (opsRun ⟨1, 0, 0⟩ [(1, "TRAIN"), (1, "NOP")]).unit.counter = 3 ∧
    (opsRun ⟨1, 0, 0⟩ [(1, "TRAIN"), (1, "NOP")]).unit.counter ≠
      transmitCount (opsRun ⟨1, 0, 0⟩ [(1, "TRAIN"), (1, "NOP")]).events := by
  decide

/-- C1 (amended): for every unit and every sequence of `run_codes`
operations (any channels, keywords, dry-run flags and transport failures),
the persisted counter is non-decreasing; and over any sequence of non-dry-run
operations with a working transport, the persisted counter's increase equals
the total number of frames transmitted for the unit plus the number of
operations that reached `db.set_unit` while transmitting zero frames
(exactly the accepted unrecognized keywords). -/
theorem claim_C1_amended :
    (∀ (u : BUnit) (ops : List (Option Nat × Int × String × Bool)),
      u.counter ≤ (opsRunF u ops).unit.counter) ∧
    (∀ (u : BUnit) (ops : List (Int × String)),
      (opsRun u ops).unit.counter =
        u.counter + transmitCount (opsRun u ops).events + (opsRun u ops).noFrame) :=
  ⟨fun u ops => opsRunF_counter_le ops u, fun u ops => opsRun_counter_eq ops u⟩

/-- C2: contrary to the claim, `send(channel, "UP:3")` on a paired unit
transmits no frame at all: the timed-move branch of `run_codes` first
calls the nonexistent accessor `_LOGGER.INFO` (line 148), which raises
`AttributeError`, so the call aborts with zero frames transmitted, the
counter unchanged and nothing persisted. -/
theorem claim_C2_timed_move_crashes :
    run_codes none 0 1 ⟨1, 0, 1⟩ "UP:3" false = ⟨[], ⟨1, 0, 1⟩, 0, false, false⟩ ∧
    transmitCount (run_codes none 0 1 ⟨1, 0, 1⟩ "UP:3" false).events = 0 := by
  decide

/-- C3: contrary to the claim, a transport failure mid-sequence persists
nothing: on a paired unit with stored counter 0, CLEARPOS transmits its
first frame (carrying counter 0) and fails on the second; the exception
propagates before `db.set_unit` (line 172), so the store still holds
counter 0 even though the in-memory counter reached 5 and a frame with
counter 0 was already transmitted. -/
theorem claim_C3_failure_skips_persist :
    (sendParsed (some 1) [⟨1, 0, 1⟩] 1 1 "CLEARPOS" false).ok = false ∧
    (sendParsed (some 1) [⟨1, 0, 1⟩] 1 1 "CLEARPOS" false).store = [⟨1, 0, 1⟩] ∧
    transmitCount (sendParsed (some 1) [⟨1, 0, 1⟩] 1 1 "CLEARPOS" false).events = 1 ∧
    (run_codes (some 1) 0 1 ⟨1, 0, 1⟩ "CLEARPOS" false).unit.counter = 5 ∧
    (run_codes (some 1) 0 1 ⟨1, 0, 1⟩ "CLEARPOS" false).persisted = false := by
  decide

/-- C7: `send` with a parsed channel outside 1..7 that is not 15 returns
before touching the store or the transport (no events, store unchanged,
no exception), while a channel in 1..7 or equal to 15 passes validation
and proceeds to unit resolution and `run_codes`. -/
theorem claim_C7_channel_validation (failAt : Option Nat) (store : List BUnit)
    (ch un : Int) (cmd : String) (test : Bool) :
    (¬(1 ≤ ch ∧ ch ≤ 7) ∧ ch ≠ 15 →
      sendParsed failAt store ch un cmd test = ⟨[], store, true⟩) ∧
    ((1 ≤ ch ∧ ch ≤ 7) ∨ ch = 15 →
      sendParsed failAt store ch un cmd test = sendResolve failAt store ch un cmd test) := by
  constructor
  · intro h
    unfold sendParsed
    rw [if_pos h]
  · intro h
    unfold sendParsed
    rcases h with h | h
    · rw [if_neg (fun hc => hc.1 h)]
    · rw [if_neg (fun hc => hc.2 h)]

/-- C7 witness: channel 8 is rejected with no side effect; channel 3
passes validation and proceeds. -/
theorem claim_C7_witness :
    sendParsed none [⟨1, 0, 1⟩] 8 1 "HALT" false = ⟨[], [⟨1, 0, 1⟩], true⟩ ∧
    sendParsed none [⟨1, 0, 1⟩] 3 1 "HALT" false =
      sendResolve none [⟨1, 0, 1⟩] 3 1 "HALT" false :=
  ⟨(claim_C7_channel_validation none [⟨1, 0, 1⟩] 8 1 "HALT" false).1 (by decide),
   (claim_C7_channel_validation none [⟨1, 0, 1⟩] 3 1 "HALT" false).2 (by decide)⟩

/-- C8: a command other than TRAIN against an unpaired unit is rejected by
the guard of `run_codes` (lines 103-105): no frame is built or
transmitted, the unit (and its counter) is unchanged, nothing is
persisted, and the call returns normally. -/
theorem claim_C8_unpaired_rejected (failAt : Option Nat) (idx : Nat) (channel : Int)
    (u : BUnit) (cmd : String) (test : Bool) (h0 : u.paired = 0) (h1 : cmd ≠ "TRAIN") :
    run_codes failAt idx channel u cmd test = ⟨[], u, idx, true, false⟩ :=
  run_codes_guard failAt idx channel u cmd test h0 h1

/-- C8 witness: UP against an unpaired unit is a no-op. -/
theorem claim_C8_witness :
    run_codes none 0 1 ⟨1, 0, 0⟩ "UP" false = ⟨[], ⟨1, 0, 0⟩, 0, true, false⟩ :=
  claim_C8_unpaired_rejected none 0 1 ⟨1, 0, 0⟩ "UP" false rfl (by decide)

/-- C9: `_reconnecting_sendall` retries a failed send exactly once after
exactly one reconnect: a send that succeeds at once delivers one message
with no reconnect; a send that fails once and then succeeds delivers
exactly one message as observed by the peer; a failure of the reconnect,
or of the retried send, propagates to the caller. -/
theorem claim_C9_reconnect (fo co so : Bool) :
    (fo = true → reconnecting_sendall fo co so = ⟨1, 1, 0, true⟩) ∧
    (fo = false → (reconnecting_sendall fo co so).reconnects = 1) ∧
    (fo = false → co = true → so = true →
      (reconnecting_sendall fo co so).delivered = 1 ∧
      (reconnecting_sendall fo co so).sendAttempts = 2 ∧
      (reconnecting_sendall fo co so).ok = true) ∧
    (fo = false → co = true → so = false →
      (reconnecting_sendall fo co so).ok = false ∧
      (reconnecting_sendall fo co so).sendAttempts = 2) ∧
    (fo = false → co = false →
      (reconnecting_sendall fo co so).ok = false ∧
      (reconnecting_sendall fo co so).delivered = 0) := by
  cases fo <;> cases co <;> cases so <;> exact (by decide)

/-- C9 witness: a send that fails once and then succeeds after the single
reconnect delivers exactly one message and returns normally. -/
theorem claim_C9_witness :
    (reconnecting_sendall false true true).delivered = 1 ∧
    (reconnecting_sendall false true true).sendAttempts = 2 ∧
    (reconnecting_sendall false true true).ok = true :=
  (claim_C9_reconnect false true true).2.2.1 rfl rfl rfl

/-- C4: TRAIN on an unpaired unit builds and transmits exactly 2 pair
frames (opcode `COMMAND_PAIR2`) carrying consecutive counters, persists
the unit with counter advanced by 2 and the paired flag set; and the
in-memory paired flag is set only after the 2nd frame is built: along any
prefix of the trace containing fewer than 2 builds the flag is still 0. -/
theorem claim_C4_pair (channel : Int) (idx : Nat) (u : BUnit) (test : Bool)
    (h : u.paired = 0) :
    run_codes none idx channel u "TRAIN" test =
      ⟨[Event.build ⟨channel, u.id, u.counter, COMMAND_PAIR2⟩,
        Event.build ⟨channel, u.id, u.counter + 1, COMMAND_PAIR2⟩,
        Event.setPaired 1,
        Event.transmit ⟨⟨channel, u.id, u.counter, COMMAND_PAIR2⟩⟩,
        Event.sleepMs 100,
        Event.transmit ⟨⟨channel, u.id, u.counter + 1, COMMAND_PAIR2⟩⟩,
        Event.sleepMs 100,
        Event.persist ⟨u.id, u.counter + 2, 1⟩ test],
       ⟨u.id, u.counter + 2, 1⟩, idx + 2, true, true⟩ ∧
    (∀ p q, (run_codes none idx channel u "TRAIN" test).events = p ++ q →
      buildCount p < 2 → pairedAfterEvents u.paired p = 0) := by
  have hev : run_codes none idx channel u "TRAIN" test =
      ⟨[Event.build ⟨channel, u.id, u.counter, COMMAND_PAIR2⟩,
        Event.build ⟨channel, u.id, u.counter + 1, COMMAND_PAIR2⟩,
        Event.setPaired 1,
        Event.transmit ⟨⟨channel, u.id, u.counter, COMMAND_PAIR2⟩⟩,
        Event.sleepMs 100,
        Event.transmit ⟨⟨channel, u.id, u.counter + 1, COMMAND_PAIR2⟩⟩,
        Event.sleepMs 100,
        Event.persist ⟨u.id, u.counter + 2, 1⟩ test],
       ⟨u.id, u.counter + 2, 1⟩, idx + 2, true, true⟩ := by
    unfold run_codes
    rw [if_neg (by simp)]
    rfl
  refine ⟨hev, ?_⟩
  rw [hev]
  intro p q hpq hlt
  rcases p with _ | ⟨e1, p⟩
  · simpa [pairedAfterEvents] using h
  rcases p with _ | ⟨e2, p⟩
  · simp only [List.cons_append, List.nil_append] at hpq
    injection hpq with h1 _
    subst h1
    simpa [pairedAfterEvents] using h
  rcases p with _ | ⟨e3, p⟩
  · simp only [List.cons_append, List.nil_append] at hpq
    injection hpq with h1 hpq
    injection hpq with h2 _
    subst h1; subst h2
    simpa [pairedAfterEvents] using h
  · simp only [List.cons_append] at hpq
    injection hpq with h1 hpq
    injection hpq with h2 hpq
    injection hpq with h3 _
    subst h1; subst h2; subst h3
    simp [buildCount] at hlt
    omega

/-- C4 witness: TRAIN on the concrete unpaired unit `[1, 0, 0]` on
channel 1; and after only the first build the flag is still 0. -/
theorem claim_C4_witness :
    run_codes none 0 1 ⟨1, 0, 0⟩ "TRAIN" false =
      ⟨[Event.build ⟨1, 1, 0, COMMAND_PAIR2⟩,
        Event.build ⟨1, 1, 1, COMMAND_PAIR2⟩,
        Event.setPaired 1,
        Event.transmit ⟨⟨1, 1, 0, COMMAND_PAIR2⟩⟩,
        Event.sleepMs 100,
        Event.transmit ⟨⟨1, 1, 1, COMMAND_PAIR2⟩⟩,
        Event.sleepMs 100,
        Event.persist ⟨1, 2, 1⟩ false],
       ⟨1, 2, 1⟩, 2, true, true⟩ ∧
    pairedAfterEvents 0 [Event.build ⟨1, 1, 0, COMMAND_PAIR2⟩] = 0 :=
  ⟨(claim_C4_pair 1 0 ⟨1, 0, 0⟩ false rfl).1,
   (claim_C4_pair 1 0 ⟨1, 0, 0⟩ false rfl).2
     [Event.build ⟨1, 1, 0, COMMAND_PAIR2⟩]
     [Event.build ⟨1, 1, 1, COMMAND_PAIR2⟩,
      Event.setPaired 1,
      Event.transmit ⟨⟨1, 1, 0, COMMAND_PAIR2⟩⟩,
      Event.sleepMs 100,
      Event.transmit ⟨⟨1, 1, 1, COMMAND_PAIR2⟩⟩,
      Event.sleepMs 100,
      Event.persist ⟨1, 2, 1⟩ false]
     (by decide) (by decide)⟩

/-- C5: REMOVE on a paired unit builds exactly 4 frames in order --
pair-pressed (`COMMAND_PAIR2`) twice, pair-held-6s (`COMMAND_PAIR3`),
pair-held-10s (`COMMAND_PAIR4`) -- transmits them, and persists the unit
with the paired flag cleared; the in-memory flag is cleared only after the
4th frame is built: along any prefix of the trace containing fewer than 4
builds the flag still holds its initial (nonzero) value. -/
theorem claim_C5_unpair (channel : Int) (idx : Nat) (u : BUnit) (test : Bool)
    (h : u.paired ≠ 0) :
    run_codes none idx channel u "REMOVE" test =
      ⟨[Event.build ⟨channel, u.id, u.counter, COMMAND_PAIR2⟩,
        Event.build ⟨channel, u.id, u.counter + 1, COMMAND_PAIR2⟩,
        Event.build ⟨channel, u.id, u.counter + 2, COMMAND_PAIR3⟩,
        Event.build ⟨channel, u.id, u.counter + 3, COMMAND_PAIR4⟩,
        Event.setPaired 0,
        Event.transmit ⟨⟨channel, u.id, u.counter, COMMAND_PAIR2⟩⟩,
        Event.sleepMs 100,
        Event.transmit ⟨⟨channel, u.id, u.counter + 1, COMMAND_PAIR2⟩⟩,
        Event.sleepMs 100,
        Event.transmit ⟨⟨channel, u.id, u.counter + 2, COMMAND_PAIR3⟩⟩,
        Event.sleepMs 100,
        Event.transmit ⟨⟨channel, u.id, u.counter + 3, COMMAND_PAIR4⟩⟩,
        Event.sleepMs 100,
        Event.persist ⟨u.id, u.counter + 4, 0⟩ test],
       ⟨u.id, u.counter + 4, 0⟩, idx + 4, true, true⟩ ∧
    (∀ p q, (run_codes none idx channel u "REMOVE" test).events = p ++ q →
      buildCount p < 4 → pairedAfterEvents u.paired p = u.paired) := by
  have hev : run_codes none idx channel u "REMOVE" test =
      ⟨[Event.build ⟨channel, u.id, u.counter, COMMAND_PAIR2⟩,
        Event.build ⟨channel, u.id, u.counter + 1, COMMAND_PAIR2⟩,
        Event.build ⟨channel, u.id, u.counter + 2, COMMAND_PAIR3⟩,
        Event.build ⟨channel, u.id, u.counter + 3, COMMAND_PAIR4⟩,
        Event.setPaired 0,
        Event.transmit ⟨⟨channel, u.id, u.counter, COMMAND_PAIR2⟩⟩,
        Event.sleepMs 100,
        Event.transmit ⟨⟨channel, u.id, u.counter + 1, COMMAND_PAIR2⟩⟩,
        Event.sleepMs 100,
        Event.transmit ⟨⟨channel, u.id, u.counter + 2, COMMAND_PAIR3⟩⟩,
        Event.sleepMs 100,
        Event.transmit ⟨⟨channel, u.id, u.counter + 3, COMMAND_PAIR4⟩⟩,
        Event.sleepMs 100,
        Event.persist ⟨u.id, u.counter + 4, 0⟩ test],
       ⟨u.id, u.counter + 4, 0⟩, idx + 4, true, true⟩ := by
    unfold run_codes
    rw [if_neg (by simp [h])]
    rfl
  refine ⟨hev, ?_⟩
  rw [hev]
  intro p q hpq hlt
  rcases p with _ | ⟨e1, p⟩
  · simp [pairedAfterEvents]
  rcases p with _ | ⟨e2, p⟩
  · simp only [List.cons_append, List.nil_append] at hpq
    injection hpq with h1 _
    subst h1
    simp [pairedAfterEvents]
  rcases p with _ | ⟨e3, p⟩
  · simp only [List.cons_append, List.nil_append] at hpq
    injection hpq with h1 hpq
    injection hpq with h2 _
    subst h1; subst h2
    simp [pairedAfterEvents]
  rcases p with _ | ⟨e4, p⟩
  · simp only [List.cons_append, List.nil_append] at hpq
    injection hpq with h1 hpq
    injection hpq with h2 hpq
    injection hpq with h3 _
    subst h1; subst h2; subst h3
    simp [pairedAfterEvents]
  rcases p with _ | ⟨e5, p⟩
  · simp only [List.cons_append, List.nil_append] at hpq
    injection hpq with h1 hpq
    injection hpq with h2 hpq
    injection hpq with h3 hpq
    injection hpq with h4 _
    subst h1; subst h2; subst h3; subst h4
    simp [pairedAfterEvents]
  · simp only [List.cons_append] at hpq
    injection hpq with h1 hpq
    injection hpq with h2 hpq
    injection hpq with h3 hpq
    injection hpq with h4 hpq
    injection hpq with h5 _
    subst h1; subst h2; subst h3; subst h4; subst h5
    simp [buildCount] at hlt
    omega

/-- C5 witness: REMOVE on the concrete paired unit `[1, 0, 1]` on
channel 1; and after only the first build the flag still holds 1. -/
theorem claim_C5_witness :
    run_codes none 0 1 ⟨1, 0, 1⟩ "REMOVE" false =
      ⟨[Event.build ⟨1, 1, 0, COMMAND_PAIR2⟩,
        Event.build ⟨1, 1, 1, COMMAND_PAIR2⟩,
        Event.build ⟨1, 1, 2, COMMAND_PAIR3⟩,
        Event.build ⟨1, 1, 3, COMMAND_PAIR4⟩,
        Event.setPaired 0,
        Event.transmit ⟨⟨1, 1, 0, COMMAND_PAIR2⟩⟩,
        Event.sleepMs 100,
        Event.transmit ⟨⟨1, 1, 1, COMMAND_PAIR2⟩⟩,
        Event.sleepMs 100,
        Event.transmit ⟨⟨1, 1, 2, COMMAND_PAIR3⟩⟩,
        Event.sleepMs 100,
        Event.transmit ⟨⟨1, 1, 3, COMMAND_PAIR4⟩⟩,
        Event.sleepMs 100,
        Event.persist ⟨1, 4, 0⟩ false],
       ⟨1, 4, 0⟩, 4, true, true⟩ ∧
    pairedAfterEvents 1 [Event.build ⟨1, 1, 0, COMMAND_PAIR2⟩] = 1 :=
  ⟨(claim_C5_unpair 1 0 ⟨1, 0, 1⟩ false (by decide)).1,
   (claim_C5_unpair 1 0 ⟨1, 0, 1⟩ false (by decide)).2
     [Event.build ⟨1, 1, 0, COMMAND_PAIR2⟩]
     [Event.build ⟨1, 1, 1, COMMAND_PAIR2⟩,
      Event.build ⟨1, 1, 2, COMMAND_PAIR3⟩,
      Event.build ⟨1, 1, 3, COMMAND_PAIR4⟩,
      Event.setPaired 0,
      Event.transmit ⟨⟨1, 1, 0, COMMAND_PAIR2⟩⟩,
      Event.sleepMs 100,
      Event.transmit ⟨⟨1, 1, 1, COMMAND_PAIR2⟩⟩,
      Event.sleepMs 100,
      Event.transmit ⟨⟨1, 1, 2, COMMAND_PAIR3⟩⟩,
      Event.sleepMs 100,
      Event.transmit ⟨⟨1, 1, 3, COMMAND_PAIR4⟩⟩,
      Event.sleepMs 100,
      Event.persist ⟨1, 4, 0⟩ false]
     (by decide) (by decide)⟩

/-- C6: CLEARPOS on a paired unit builds exactly 5 frames in order --
pair (`COMMAND_PAIR`), then `COMMAND_CLEARPOS` through
`COMMAND_CLEARPOS4` -- carrying consecutive counter values (one increment
per frame), transmits them in that order, and persists the unit with the
counter advanced by 5 and the paired flag unchanged. -/
theorem claim_C6_clearpos (channel : Int) (idx : Nat) (u : BUnit) (test : Bool)
    (h : u.paired ≠ 0) :
    run_codes none idx channel u "CLEARPOS" test =
      ⟨[Event.build ⟨channel, u.id, u.counter, COMMAND_PAIR⟩,
        Event.build ⟨channel, u.id, u.counter + 1, COMMAND_CLEARPOS⟩,
        Event.build ⟨channel, u.id, u.counter + 2, COMMAND_CLEARPOS2⟩,
        Event.build ⟨channel, u.id, u.counter + 3, COMMAND_CLEARPOS3⟩,
        Event.build ⟨channel, u.id, u.counter + 4, COMMAND_CLEARPOS4⟩,
        Event.transmit ⟨⟨channel, u.id, u.counter, COMMAND_PAIR⟩⟩,
        Event.sleepMs 100,
        Event.transmit ⟨⟨channel, u.id, u.counter + 1, COMMAND_CLEARPOS⟩⟩,
        Event.sleepMs 100,
        Event.transmit ⟨⟨channel, u.id, u.counter + 2, COMMAND_CLEARPOS2⟩⟩,
        Event.sleepMs 100,
        Event.transmit ⟨⟨channel, u.id, u.counter + 3, COMMAND_CLEARPOS3⟩⟩,
        Event.sleepMs 100,
        Event.transmit ⟨⟨channel, u.id, u.counter + 4, COMMAND_CLEARPOS4⟩⟩,
        Event.sleepMs 100,
        Event.persist ⟨u.id, u.counter + 5, u.paired⟩ test],
       ⟨u.id, u.counter + 5, u.paired⟩, idx + 5, true, true⟩ := by
  unfold run_codes
  rw [if_neg (by simp [h])]
  rfl

/-- C6 witness: CLEARPOS on the concrete paired unit `[1, 0, 1]` on
channel 1. -/
theorem claim_C6_witness :
    run_codes none 0 1 ⟨1, 0, 1⟩ "CLEARPOS" false =
      ⟨[Event.build ⟨1, 1, 0, COMMAND_PAIR⟩,
        Event.build ⟨1, 1, 1, COMMAND_CLEARPOS⟩,
        Event.build ⟨1, 1, 2, COMMAND_CLEARPOS2⟩,
        Event.build ⟨1, 1, 3, COMMAND_CLEARPOS3⟩,
        Event.build ⟨1, 1, 4, COMMAND_CLEARPOS4⟩,
        Event.transmit ⟨⟨1, 1, 0, COMMAND_PAIR⟩⟩,
        Event.sleepMs 100,
        Event.transmit ⟨⟨1, 1, 1, COMMAND_CLEARPOS⟩⟩,
        Event.sleepMs 100,
        Event.transmit ⟨⟨1, 1, 2, COMMAND_CLEARPOS2⟩⟩,
        Event.sleepMs 100,
        Event.transmit ⟨⟨1, 1, 3, COMMAND_CLEARPOS3⟩⟩,
        Event.sleepMs 100,
        Event.transmit ⟨⟨1, 1, 4, COMMAND_CLEARPOS4⟩⟩,
        Event.sleepMs 100,
        Event.persist ⟨1, 5, 1⟩ false],
       ⟨1, 5, 1⟩, 5, true, true⟩ :=
  claim_C6_clearpos 1 0 ⟨1, 0, 1⟩ false (by decide)

/-- C10: `send` on a paired unit with a valid channel and a keyword
outside the recognized set (and not a timed-move pattern) transmits zero
frames, yet increments the unit's counter by exactly 1 and persists the
incremented record to the store. -/
theorem claim_C10_unknown_keyword (store : List BUnit) (ch un : Int) (cmd : String)
    (u : BUnit)
    (hch : (1 ≤ ch ∧ ch ≤ 7) ∨ ch = 15) (hun : un > 0)
    (hget : get_unit store un = some u) (hp : u.paired ≠ 0)
    (hk : cmd ∉ (["UP", "UP2", "HALT", "DOWN", "DOWN2", "TRAIN", "CLEARPOS", "REMOVE"] : List String))
    (hmt : matchTimed cmd = none) :
    sendParsed none store ch un cmd false =
      ⟨[Event.persist ⟨u.id, u.counter + 1, u.paired⟩ false],
       set_unit store ⟨u.id, u.counter + 1, u.paired⟩ false, true⟩ := by
  have hg : ¬(u.paired = 0 ∧ cmd ≠ "TRAIN") := fun hc => hp hc.1
  have hrun : run_codes none 0 ch u cmd false =
      ⟨[Event.persist ⟨u.id, u.counter + 1, u.paired⟩ false],
       ⟨u.id, u.counter + 1, u.paired⟩, 0, true, true⟩ := by
    have := run_codes_shape 0 ch u cmd false hg hmt
    rw [buildPhase_unknown ch u cmd hk, pairedEvents_unknown cmd hk] at this
    simpa [wireEvents] using this
  unfold sendParsed
  rw [if_neg (fun hc => by rcases hch with h | h; exact hc.1 h; exact hc.2 h)]
  unfold sendResolve
  rw [if_pos hun]
  simp only [hget]
  rw [hrun]
  rfl

/-- C10 witness: the unrecognized keyword NOP against the paired unit
`[1, 0, 1]` on channel 1 transmits nothing but stores counter 1. -/
theorem claim_C10_witness :
    sendParsed none [⟨1, 0, 1⟩] 1 1 "NOP" false =
      ⟨[Event.persist ⟨1, 1, 1⟩ false], [⟨1, 1, 1⟩], true⟩ := by
  have := claim_C10_unknown_keyword [⟨1, 0, 1⟩] 1 1 "NOP" ⟨1, 0, 1⟩
    (by decide) (by decide) (by decide) (by decide) (by decide) (by decide)
  simpa [set_unit] using this

end Pybecker
